import Mathlib

/-!
# Verification of the WebRTC signaling core in src/src/App.jsx

Shallow embedding of the negotiation logic of the App component:
the observable state of an RTCPeerConnection, the Firestore calls
collection, the createCall and answerCall entry points, the
onicecandidate publisher, and the onSnapshot callbacks for the
call document and the candidates subcollection.  External effects
(the description returned by createOffer or createAnswer, the random
call id, snapshot deliveries) are inputs of the Lean functions.
-/

namespace DroidCam

/-- A session description (offer or answer) as serialized to Firestore
by RTCSessionDescription.toJSON. -/
structure SessionDescription where
  sdpType : String
  sdp : String
deriving DecidableEq

/-- A media stream: a JS object identity plus its tracks. Two streams
are the same object exactly when their ids are equal. -/
structure MediaStream where
  id : Nat
  tracks : List String
deriving DecidableEq

/-- A candidate document as written by the onicecandidate handler:
the candidate JSON (opaque here) plus the role tag stored in the
field named type. -/
structure CandidateData where
  payload : String
  type : String
deriving DecidableEq

/-- One entry of snapshot.docChanges(): the change kind (added,
modified or removed) and the document data. -/
structure DocChange where
  changeType : String
  docData : CandidateData
deriving DecidableEq

/-- One document of the calls collection: offer and answer fields,
each possibly absent. -/
structure CallRecord where
  offer : Option SessionDescription
  answer : Option SessionDescription
deriving DecidableEq

/-- The calls collection, as a map from document id to document. -/
def Store := String → Option CallRecord

/-- The collection before any write. -/
def emptyStore : Store := fun _ => none

/-- Firestore setDoc without the merge option: the whole document is
replaced (App.jsx line 161). -/
def setDoc (s : Store) (docId : String) (r : CallRecord) : Store :=
  fun q => if q = docId then some r else s q

/-- Firestore setDoc with merge true writing only the answer field
(App.jsx line 217): the offer field of an existing document is kept. -/
def setDocMergeAnswer (s : Store) (docId : String) (a : SessionDescription) : Store :=
  match s docId with
  | some r => setDoc s docId { r with answer := some a }
  | none => setDoc s docId { offer := none, answer := some a }

/-- Observable state of one RTCPeerConnection: the tracks passed to
addTrack, the streams they were associated with, the committed local
and remote descriptions, how many times setRemoteDescription ran, and
the candidates passed to addIceCandidate in order. -/
structure PCState where
  addedTracks : List String
  streams : List MediaStream
  localDescription : Option SessionDescription
  currentRemoteDescription : Option SessionDescription
  setRemoteCalls : Nat
  appliedCandidates : List CandidateData
deriving DecidableEq

/-- A freshly constructed RTCPeerConnection. -/
def initialPC : PCState :=
  { addedTracks := []
    streams := []
    localDescription := none
    currentRemoteDescription := none
    setRemoteCalls := 0
    appliedCandidates := [] }

/-- pc.addTrack(track, stream): records the track and associates the
stream (each stream object is listed once). -/
def addTrack (pc : PCState) (track : String) (stream : MediaStream) : PCState :=
  { pc with
    addedTracks := pc.addedTracks ++ [track]
    streams := if stream ∈ pc.streams then pc.streams else pc.streams ++ [stream] }

/-- pc.getLocalStreams(): the streams associated via addTrack. -/
def getLocalStreams (pc : PCState) : List MediaStream :=
  pc.streams

/-- pc.setLocalDescription(d). -/
def setLocalDescription (pc : PCState) (d : SessionDescription) : PCState :=
  { pc with localDescription := some d }

/-- pc.setRemoteDescription(d): commits the remote description and is
counted. -/
def setRemoteDescription (pc : PCState) (d : SessionDescription) : PCState :=
  { pc with
    currentRemoteDescription := some d
    setRemoteCalls := pc.setRemoteCalls + 1 }

/-- pc.addIceCandidate(c): the candidate is applied immediately and
appended to the application order. -/
def addIceCandidate (pc : PCState) (c : CandidateData) : PCState :=
  { pc with appliedCandidates := pc.appliedCandidates ++ [c] }

/-- createPeerConnection (App.jsx lines 98-136) as far as track
attachment goes: every track of the local stream is added to a fresh
connection via addTrack. -/
def createPeerConnection (localStream : MediaStream) : PCState :=
  localStream.tracks.foldl (fun pc track => addTrack pc track localStream) initialPC

/-- The path of the candidates subcollection of one call document. -/
def candidatesPath (appId callId : String) : String :=
  "artifacts/" ++ appId ++ "/public/data/calls/" ++ callId ++ "/candidates"

/-- The onicecandidate handler (App.jsx lines 112-119), fired with
one discovered candidate: returns the collection path written to and
the document added.  capturedCallId is the value of the callId state
captured by the closure when createPeerConnection ran.  The role tag
comes from comparing localStream with getLocalStreams()[0]. -/
def onicecandidate (appId capturedCallId : String) (localStream : MediaStream)
    (newPc : PCState) (candidateJson : String) : String × CandidateData :=
  (candidatesPath appId capturedCallId,
   { payload := candidateJson
     type :=
       match (getLocalStreams newPc).head? with
       | some s0 => if localStream = s0 then "caller" else "callee"
       | none => "callee" })

/-- The call-document watch callback registered by createCall
(App.jsx lines 165-173): apply the answer as remote description only
when an answer exists, the local description is set, and no remote
description has been applied yet. -/
def onAnswerSnapshot (newPc : PCState) (data : Option CallRecord) : PCState :=
  match data.bind (fun d => d.answer) with
  | some ans =>
      if newPc.localDescription ≠ none ∧ newPc.currentRemoteDescription = none then
        setRemoteDescription newPc ans
      else newPc
  | none => newPc

/-- Sequential processing of a series of call-document snapshot
deliveries by the watch callback. -/
def processAnswerSnapshots : PCState → List (Option CallRecord) → PCState
  | pc, [] => pc
  | pc, d :: ds => processAnswerSnapshots (onAnswerSnapshot pc d) ds

/-- The candidates-subcollection watch callback registered by
createCall (App.jsx lines 178-185): for each change of one snapshot,
apply the candidate when the change kind is added and the document is
tagged callee. -/
def onCallerCandidatesSnapshot : PCState → List DocChange → PCState
  | pc, [] => pc
  | pc, change :: rest =>
      onCallerCandidatesSnapshot
        (if change.changeType = "added" ∧ change.docData.type = "callee" then
          addIceCandidate pc change.docData
        else pc)
        rest

/-- The candidates-subcollection watch callback registered by
answerCall (App.jsx lines 224-231): same shape, filtering on the
caller tag. -/
def onCalleeCandidatesSnapshot : PCState → List DocChange → PCState
  | pc, [] => pc
  | pc, change :: rest =>
      onCalleeCandidatesSnapshot
        (if change.changeType = "added" ∧ change.docData.type = "caller" then
          addIceCandidate pc change.docData
        else pc)
        rest

/-- Sequential processing of a series of candidates-snapshot
deliveries by the caller-side watch callback. -/
def callerCandidateDeliveries : PCState → List (List DocChange) → PCState
  | pc, [] => pc
  | pc, chs :: rest => callerCandidateDeliveries (onCallerCandidatesSnapshot pc chs) rest

/-- The outcome of one createCall invocation: the message put into the
errorMessage state, the callId state afterwards, the store after the
offer write, the connection stored in pc.current, the collection path
the onicecandidate closure of this connection will write to, and the
path of the candidates watch opened. -/
structure CreateCallResult where
  errorMessage : String
  callIdState : String
  store : Store
  pcRef : Option PCState
  publishPath : Option String
  candidatesWatchPath : Option String

/-- createCall (App.jsx lines 139-186).  capturedCallId is the callId
state at click time: the closures created inside see this value, not
the newly generated id, because setCallId only takes effect on the
next render.  newCallId is the generated random id and producedOffer
the description returned by createOffer. -/
def createCall (dbReady : Bool) (localStream : Option MediaStream)
    (capturedCallId newCallId : String) (producedOffer : SessionDescription)
    (appId : String) (s : Store) : CreateCallResult :=
  if dbReady = false ∨ localStream = none then
    { errorMessage := "Please start your camera before creating a call."
      callIdState := capturedCallId
      store := s
      pcRef := none
      publishPath := none
      candidatesWatchPath := none }
  else
    let stream := localStream.getD { id := 0, tracks := [] }
    let pc1 := setLocalDescription (createPeerConnection stream) producedOffer
    { errorMessage := "Call created! Share this ID: " ++ newCallId
      callIdState := newCallId
      store := setDoc s newCallId { offer := some producedOffer, answer := none }
      pcRef := some pc1
      publishPath := some (candidatesPath appId capturedCallId)
      candidatesWatchPath := some (candidatesPath appId newCallId) }

/-- The outcome of one answerCall invocation. -/
structure AnswerCallResult where
  errorMessage : String
  store : Store
  pcRef : Option PCState
  answerWritten : Option SessionDescription
  publishPath : Option String
  subscribedToCandidates : Bool

/-- answerCall (App.jsx lines 189-232).  The lookup of the call
document by scanning the whole collection and filtering by id (lines
200-201) is modelled as a direct lookup, which finds exactly the same
document.  producedAnswer is the description returned by
createAnswer. -/
def answerCall (dbReady : Bool) (localStream : Option MediaStream) (callId : String)
    (producedAnswer : SessionDescription) (appId : String) (s : Store) : AnswerCallResult :=
  if dbReady = false ∨ localStream = none ∨ callId = "" then
    { errorMessage := "Please start your camera and enter a Call ID to answer."
      store := s
      pcRef := none
      answerWritten := none
      publishPath := none
      subscribedToCandidates := false }
  else
    let stream := localStream.getD { id := 0, tracks := [] }
    let pc0 := createPeerConnection stream
    match (s callId).bind (fun d => d.offer) with
    | none =>
      { errorMessage := "Call ID not found or call has no offer."
        store := s
        pcRef := some pc0
        answerWritten := none
        publishPath := some (candidatesPath appId callId)
        subscribedToCandidates := false }
    | some offer =>
      let pc2 := setLocalDescription (setRemoteDescription pc0 offer) producedAnswer
      { errorMessage := "Answer sent. You should see a stream shortly."
        store := setDocMergeAnswer s callId producedAnswer
        pcRef := some pc2
        answerWritten := some producedAnswer
        publishPath := some (candidatesPath appId callId)
        subscribedToCandidates := true }

/-- One user-triggered operation against the calls collection. -/
inductive ChannelOp where
  | createOp (dbReady : Bool) (localStream : Option MediaStream)
      (capturedCallId newCallId : String) (producedOffer : SessionDescription)
  | answerOp (dbReady : Bool) (localStream : Option MediaStream)
      (callId : String) (producedAnswer : SessionDescription)

/-- The store effect of one operation. -/
def applyChannelOp (appId : String) (s : Store) : ChannelOp → Store
  | ChannelOp.createOp db ls cap nid o => (createCall db ls cap nid o appId s).store
  | ChannelOp.answerOp db ls cid a => (answerCall db ls cid a appId s).store

/-- The store after a sequence of operations starting from the empty
collection. -/
def runOps (appId : String) (ops : List ChannelOp) : Store :=
  ops.foldl (applyChannelOp appId) emptyStore

/-- Every stored document carrying an answer also carries an offer. -/
def AnswerImpliesOffer (s : Store) : Prop :=
  ∀ docId r, s docId = some r → r.answer.isSome → r.offer.isSome

/-! Concrete inputs used by witnesses and counterexamples. -/

/-- A local stream with two tracks, as startCamera provides. -/
def streamW : MediaStream := { id := 1, tracks := ["video0", "audio0"] }

def offerW : SessionDescription := { sdpType := "offer", sdp := "sdpO" }

def offerW2 : SessionDescription := { sdpType := "offer", sdp := "sdpO2" }

def answW : SessionDescription := { sdpType := "answer", sdp := "sdpA" }

def answW2 : SessionDescription := { sdpType := "answer", sdp := "sdpA2" }

/-- A store holding one call document with an offer under id 42. -/
def storeW42 : Store := setDoc emptyStore "42" { offer := some offerW, answer := none }

/-- The connection a responder session holds after a successful
answerCall on call 42. -/
def calleePCW : PCState :=
  (answerCall true (some streamW) "42" answW "app" storeW42).pcRef.getD initialPC

/-- The connection an initiator session holds right after createCall
generated id 123456 while the callId state was empty. -/
def callerPCW : PCState :=
  (createCall true (some streamW) "" "123456" offerW "app" emptyStore).pcRef.getD initialPC

/-- One candidate document tagged callee. -/
def calleeCandW : CandidateData := { payload := "cand1", type := "callee" }

/-- One snapshot delivery bringing three added callee-tagged
candidate documents. -/
def threeAddedW : List DocChange :=
  [{ changeType := "added", docData := { payload := "a1", type := "callee" } },
   { changeType := "added", docData := { payload := "a2", type := "callee" } },
   { changeType := "added", docData := { payload := "a3", type := "callee" } }]

/-- createCall followed by two answerCall invocations on the same id. -/
def c6OpsA : List ChannelOp :=
  [ChannelOp.createOp true (some streamW) "" "7" offerW,
   ChannelOp.answerOp true (some streamW) "7" answW,
   ChannelOp.answerOp true (some streamW) "7" answW2]

/-- createCall, answerCall, then a createCall whose generated id
collides with the existing record. -/
def c6OpsB : List ChannelOp :=
  [ChannelOp.createOp true (some streamW) "" "7" offerW,
   ChannelOp.answerOp true (some streamW) "7" answW,
   ChannelOp.createOp true (some streamW) "" "7" offerW2]

/-- A first createCall, generating id 111. -/
def c8first : CreateCallResult :=
  createCall true (some streamW) "" "111" offerW "app" emptyStore

/-- A second createCall on the same session, generating id 222. -/
def c8second : CreateCallResult :=
  createCall true (some streamW) c8first.callIdState "222" offerW2 "app" c8first.store

/-! Helper lemmas. -/

lemma foldl_addTrack_fields (ts : List String) (st : MediaStream) (pc : PCState) :
    ((ts.foldl (fun pc track => addTrack pc track st) pc).addedTracks = pc.addedTracks ++ ts)
    ∧ ((ts.foldl (fun pc track => addTrack pc track st) pc).localDescription
        = pc.localDescription)
    ∧ ((ts.foldl (fun pc track => addTrack pc track st) pc).currentRemoteDescription
        = pc.currentRemoteDescription)
    ∧ ((ts.foldl (fun pc track => addTrack pc track st) pc).setRemoteCalls
        = pc.setRemoteCalls)
    ∧ ((ts.foldl (fun pc track => addTrack pc track st) pc).appliedCandidates
        = pc.appliedCandidates) := by
  induction ts generalizing pc with
  | nil => simp
  | cons t rest ih =>
    simp only [List.foldl_cons]
    rcases ih (addTrack pc t st) with ⟨h1, h2, h3, h4, h5⟩
    refine ⟨?_, ?_, ?_, ?_, ?_⟩
    · rw [h1]; simp [addTrack]
    · rw [h2]; simp [addTrack]
    · rw [h3]; simp [addTrack]
    · rw [h4]; simp [addTrack]
    · rw [h5]; simp [addTrack]

lemma createPeerConnection_fields (ls : MediaStream) :
    (createPeerConnection ls).addedTracks = ls.tracks
    ∧ (createPeerConnection ls).localDescription = none
    ∧ (createPeerConnection ls).currentRemoteDescription = none
    ∧ (createPeerConnection ls).setRemoteCalls = 0
    ∧ (createPeerConnection ls).appliedCandidates = [] := by
  have h := foldl_addTrack_fields ls.tracks ls initialPC
  simpa [createPeerConnection, initialPC] using h

lemma onAnswerSnapshot_inv (pc : PCState) (d : Option CallRecord)
    (h1 : pc.setRemoteCalls ≤ 1)
    (h2 : pc.currentRemoteDescription = none → pc.setRemoteCalls = 0) :
    (onAnswerSnapshot pc d).setRemoteCalls ≤ 1
    ∧ ((onAnswerSnapshot pc d).currentRemoteDescription = none →
        (onAnswerSnapshot pc d).setRemoteCalls = 0) := by
  unfold onAnswerSnapshot
  split
  · by_cases hc : pc.localDescription ≠ none ∧ pc.currentRemoteDescription = none
    · rw [if_pos hc]
      have h0 : pc.setRemoteCalls = 0 := h2 hc.2
      constructor
      · simp [setRemoteDescription, h0]
      · intro hnon
        simp [setRemoteDescription] at hnon
    · rw [if_neg hc]
      exact ⟨h1, h2⟩
  · exact ⟨h1, h2⟩

lemma processAnswerSnapshots_le_one (ds : List (Option CallRecord)) (pc : PCState)
    (h1 : pc.setRemoteCalls ≤ 1)
    (h2 : pc.currentRemoteDescription = none → pc.setRemoteCalls = 0) :
    (processAnswerSnapshots pc ds).setRemoteCalls ≤ 1 := by
  induction ds generalizing pc with
  | nil => exact h1
  | cons d rest ih =>
    have step := onAnswerSnapshot_inv pc d h1 h2
    exact ih (onAnswerSnapshot pc d) step.1 step.2

lemma caller_snapshot_applied_mem (changes : List DocChange) (pc : PCState)
    (c : CandidateData)
    (hc : c ∈ (onCallerCandidatesSnapshot pc changes).appliedCandidates) :
    c ∈ pc.appliedCandidates ∨ c.type = "callee" := by
  induction changes generalizing pc with
  | nil => exact Or.inl hc
  | cons ch rest ih =>
    have hc' : c ∈ (onCallerCandidatesSnapshot
        (if ch.changeType = "added" ∧ ch.docData.type = "callee" then
          addIceCandidate pc ch.docData
        else pc) rest).appliedCandidates := hc
    rcases ih _ hc' with h | h
    · by_cases hcond : ch.changeType = "added" ∧ ch.docData.type = "callee"
      · rw [if_pos hcond] at h
        simp only [addIceCandidate, List.mem_append, List.mem_singleton] at h
        rcases h with h | h
        · exact Or.inl h
        · subst h
          exact Or.inr hcond.2
      · rw [if_neg hcond] at h
        exact Or.inl h
    · exact Or.inr h

lemma callee_snapshot_applied_mem (changes : List DocChange) (pc : PCState)
    (c : CandidateData)
    (hc : c ∈ (onCalleeCandidatesSnapshot pc changes).appliedCandidates) :
    c ∈ pc.appliedCandidates ∨ c.type = "caller" := by
  induction changes generalizing pc with
  | nil => exact Or.inl hc
  | cons ch rest ih =>
    have hc' : c ∈ (onCalleeCandidatesSnapshot
        (if ch.changeType = "added" ∧ ch.docData.type = "caller" then
          addIceCandidate pc ch.docData
        else pc) rest).appliedCandidates := hc
    rcases ih _ hc' with h | h
    · by_cases hcond : ch.changeType = "added" ∧ ch.docData.type = "caller"
      · rw [if_pos hcond] at h
        simp only [addIceCandidate, List.mem_append, List.mem_singleton] at h
        rcases h with h | h
        · exact Or.inl h
        · subst h
          exact Or.inr hcond.2
      · rw [if_neg hcond] at h
        exact Or.inl h
    · exact Or.inr h

lemma caller_snapshot_applied_length (changes : List DocChange) (pc : PCState) :
    (onCallerCandidatesSnapshot pc changes).appliedCandidates.length
      = pc.appliedCandidates.length
        + changes.countP
            (fun ch => decide (ch.changeType = "added" ∧ ch.docData.type = "callee")) := by
  induction changes generalizing pc with
  | nil => simp [onCallerCandidatesSnapshot]
  | cons ch rest ih =>
    have hstep : (onCallerCandidatesSnapshot pc (ch :: rest)).appliedCandidates.length
        = (onCallerCandidatesSnapshot
            (if ch.changeType = "added" ∧ ch.docData.type = "callee" then
              addIceCandidate pc ch.docData
            else pc) rest).appliedCandidates.length := rfl
    rw [hstep, ih, List.countP_cons]
    by_cases hcond : ch.changeType = "added" ∧ ch.docData.type = "callee"
    · rw [if_pos hcond]
      simp [addIceCandidate, hcond]
      omega
    · rw [if_neg hcond]
      simp [hcond]

lemma callee_snapshot_applied_length (changes : List DocChange) (pc : PCState) :
    (onCalleeCandidatesSnapshot pc changes).appliedCandidates.length
      = pc.appliedCandidates.length
        + changes.countP
            (fun ch => decide (ch.changeType = "added" ∧ ch.docData.type = "caller")) := by
  induction changes generalizing pc with
  | nil => simp [onCalleeCandidatesSnapshot]
  | cons ch rest ih =>
    have hstep : (onCalleeCandidatesSnapshot pc (ch :: rest)).appliedCandidates.length
        = (onCalleeCandidatesSnapshot
            (if ch.changeType = "added" ∧ ch.docData.type = "caller" then
              addIceCandidate pc ch.docData
            else pc) rest).appliedCandidates.length := rfl
    rw [hstep, ih, List.countP_cons]
    by_cases hcond : ch.changeType = "added" ∧ ch.docData.type = "caller"
    · rw [if_pos hcond]
      simp [addIceCandidate, hcond]
      omega
    · rw [if_neg hcond]
      simp [hcond]

lemma applyChannelOp_preserves (appId : String) (s : Store) (op : ChannelOp)
    (h : AnswerImpliesOffer s) : AnswerImpliesOffer (applyChannelOp appId s op) := by
  cases op with
  | createOp db ls cap nid o =>
    by_cases hg : db = false ∨ ls = none
    · intro docId r hr ha
      simp only [applyChannelOp, createCall, if_pos hg] at hr
      exact h docId r hr ha
    · intro docId r hr ha
      simp only [applyChannelOp, createCall, if_neg hg, setDoc] at hr
      by_cases hid : docId = nid
      · rw [if_pos hid] at hr
        injection hr with hr
        subst hr
        simp at ha
      · rw [if_neg hid] at hr
        exact h docId r hr ha
  | answerOp db ls cid a =>
    by_cases hg : db = false ∨ ls = none ∨ cid = ""
    · intro docId r hr ha
      simp only [applyChannelOp, answerCall, if_pos hg] at hr
      exact h docId r hr ha
    · rcases hlk : (s cid).bind (fun d => d.offer) with _ | o
      · intro docId r hr ha
        simp only [applyChannelOp, answerCall, if_neg hg, hlk] at hr
        exact h docId r hr ha
      · rcases Option.bind_eq_some.mp hlk with ⟨rc, hrc, hoff⟩
        intro docId r hr ha
        simp only [applyChannelOp, answerCall, if_neg hg, hlk] at hr
        simp only [setDocMergeAnswer, hrc, setDoc] at hr
        by_cases hid : docId = cid
        · rw [if_pos hid] at hr
          injection hr with hr
          subst hr
          simp [hoff]
        · rw [if_neg hid] at hr
          exact h docId r hr ha

lemma runOps_answerImpliesOffer (appId : String) (ops : List ChannelOp) :
    AnswerImpliesOffer (runOps appId ops) := by
  have hgen : ∀ (l : List ChannelOp) (s : Store),
      AnswerImpliesOffer s → AnswerImpliesOffer (l.foldl (applyChannelOp appId) s) := by
    intro l
    induction l with
    | nil => intro s hs; exact hs
    | cons op rest ih =>
      intro s hs
      exact ih _ (applyChannelOp_preserves appId s op hs)
  refine hgen ops emptyStore ?_
  intro docId r hr ha
  simp [emptyStore] at hr

/-! Claim theorems. -/

/-- Claim C1: for every initiator session created by createCall,
setRemoteDescription runs at most once on the session connection, no
matter how many times the call-document watch redelivers the document
containing the answer; duplicate deliveries after the first
application are ignored by the guard on currentRemoteDescription. -/
theorem C1_setRemoteDescription_at_most_once (ls : MediaStream) (cap newId : String)
    (o : SessionDescription) (appId : String) (s : Store) (pc : PCState)
    (ds : List (Option CallRecord))
    (h : (createCall true (some ls) cap newId o appId s).pcRef = some pc) :
    (processAnswerSnapshots pc ds).setRemoteCalls ≤ 1 := by
  have hg : ¬(true = false ∨ (some ls : Option MediaStream) = none) := by simp
  simp only [createCall, if_neg hg, Option.getD_some, Option.some.injEq] at h
  subst h
  rcases createPeerConnection_fields ls with ⟨-, -, hrem, hcalls, -⟩
  refine processAnswerSnapshots_le_one ds _ ?_ ?_
  · simp [setLocalDescription, hcalls]
  · intro _
    simp [setLocalDescription, hcalls]

/-- Witness for C1 at a concrete initiator session and a triple
redelivery of the same answer document. -/
theorem C1_witness :
    (processAnswerSnapshots (setLocalDescription (createPeerConnection streamW) offerW)
      [some { offer := some offerW, answer := some answW },
       some { offer := some offerW, answer := some answW },
       some { offer := some offerW, answer := some answW }]).setRemoteCalls ≤ 1 :=
  C1_setRemoteDescription_at_most_once streamW "" "123456" offerW "app" emptyStore
    (setLocalDescription (createPeerConnection streamW) offerW)
    [some { offer := some offerW, answer := some answW },
     some { offer := some offerW, answer := some answW },
     some { offer := some offerW, answer := some answW }]
    (by decide)

/-- Claim C2: neither watch callback ever applies a candidate entry
tagged with the own role of the session: any entry newly applied by
the caller-side callback is tagged callee, and any entry newly
applied by the callee-side callback is tagged caller. -/
theorem C2_no_own_role_tag_applied (pc : PCState) (changes : List DocChange)
    (c : CandidateData) :
    (c ∈ (onCallerCandidatesSnapshot pc changes).appliedCandidates →
      c ∉ pc.appliedCandidates → c.type = "callee")
    ∧ (c ∈ (onCalleeCandidatesSnapshot pc changes).appliedCandidates →
      c ∉ pc.appliedCandidates → c.type = "caller") := by
  constructor
  · intro h1 h2
    rcases caller_snapshot_applied_mem changes pc c h1 with h | h
    · exact absurd h h2
    · exact h
  · intro h1 h2
    rcases callee_snapshot_applied_mem changes pc c h1 with h | h
    · exact absurd h h2
    · exact h

/-- Witness for C2 on one opposite-tagged entry for each role. -/
theorem C2_witness :
    ((⟨"p1", "callee"⟩ : CandidateData).type = "callee")
    ∧ ((⟨"p2", "caller"⟩ : CandidateData).type = "caller") :=
  ⟨(C2_no_own_role_tag_applied initialPC [⟨"added", ⟨"p1", "callee"⟩⟩]
      ⟨"p1", "callee"⟩).1 (by decide) (by decide),
   (C2_no_own_role_tag_applied initialPC [⟨"added", ⟨"p2", "caller"⟩⟩]
      ⟨"p2", "caller"⟩).2 (by decide) (by decide)⟩

/-- Claim C3 is false on the code: the responder connection (created
by answerCall from the local stream) publishes its candidates tagged
caller, because localStream is getLocalStreams()[0] for both roles;
and the initiator publishes to the candidates path of the callId
captured before the new id was generated (here the empty string),
not to the path of the call record the session is bound to. -/
theorem C3_publish_wrong_tag_and_path :
    (onicecandidate "app" "42" streamW calleePCW "candJson").2.type = "caller"
    ∧ (createCall true (some streamW) "" "123456" offerW "app" emptyStore).callIdState
        = "123456"
    ∧ (createCall true (some streamW) "" "123456" offerW "app" emptyStore).publishPath
        = some (candidatesPath "app" "")
    ∧ candidatesPath "app" "" ≠ candidatesPath "app" "123456" := by decide

/-- Claim C4 is false on the code: a callee-tagged candidate delivered
to the initiator before any remote description is set is applied
immediately by addIceCandidate; there is no queue and no guard on the
remote description. -/
theorem C4_candidate_applied_before_remote_description :
    callerPCW.currentRemoteDescription = none
    ∧ (onCallerCandidatesSnapshot callerPCW
        [{ changeType := "added", docData := calleeCandW }]).appliedCandidates
        = [calleeCandW]
    ∧ (onCallerCandidatesSnapshot callerPCW
        [{ changeType := "added", docData := calleeCandW }]).currentRemoteDescription
        = none := by decide

/-- Counterexample to claim C5: redelivering the same set of three
callee-tagged candidate entries twice as added changes yields six
addIceCandidate applications, not three. -/
theorem C5_counterexample :
    (callerCandidateDeliveries (createPeerConnection streamW)
        [threeAddedW, threeAddedW]).appliedCandidates.length = 6
    ∧ (callerCandidateDeliveries (createPeerConnection streamW)
        [threeAddedW, threeAddedW]).appliedCandidates.length ≠ 3 := by decide

/-- Claim C5 as amended: candidate application is not deduplicated by
entry identity; each snapshot callback applies exactly as many
candidates as there are delivered changes with kind added and the
opposite-role tag, duplicates included, so a redelivered entry is
applied again. -/
theorem C5_every_added_opposite_change_applied (pc : PCState)
    (changes : List DocChange) :
    ((onCallerCandidatesSnapshot pc changes).appliedCandidates.length
      = pc.appliedCandidates.length
        + changes.countP
            (fun ch => decide (ch.changeType = "added" ∧ ch.docData.type = "callee")))
    ∧ ((onCalleeCandidatesSnapshot pc changes).appliedCandidates.length
      = pc.appliedCandidates.length
        + changes.countP
            (fun ch => decide (ch.changeType = "added" ∧ ch.docData.type = "caller"))) :=
  ⟨caller_snapshot_applied_length changes pc, callee_snapshot_applied_length changes pc⟩

/-- Counterexample to claim C6: a second answerCall for the same call
id overwrites the answer instead of being a no-op, and a createCall
whose generated id collides with an existing record replaces the
whole record, erasing its answer. -/
theorem C6_counterexample :
    runOps "app" c6OpsA "7" = some { offer := some offerW, answer := some answW2 }
    ∧ answW2 ≠ answW
    ∧ runOps "app" c6OpsB "7" = some { offer := some offerW2, answer := none } := by
  decide

/-- Claim C6 as amended: over every sequence of createCall and
answerCall invocations starting from the empty collection, an answer
is never present without an offer in the same call record; the
at-most-one-write part of the claim does not hold. -/
theorem C6_answer_never_before_offer (appId : String) (ops : List ChannelOp)
    (docId : String) (r : CallRecord)
    (h : runOps appId ops docId = some r) (ha : r.answer.isSome) : r.offer.isSome :=
  runOps_answerImpliesOffer appId ops docId r h ha

/-- Witness for C6 on a concrete create-then-answer run. -/
theorem C6_witness :
    runOps "app" [ChannelOp.createOp true (some streamW) "" "7" offerW,
        ChannelOp.answerOp true (some streamW) "7" answW] "7"
      = some { offer := some offerW, answer := some answW }
    ∧ ({ offer := some offerW, answer := some answW } : CallRecord).offer.isSome :=
  ⟨by decide,
   C6_answer_never_before_offer "app"
     [ChannelOp.createOp true (some streamW) "" "7" offerW,
      ChannelOp.answerOp true (some streamW) "7" answW] "7"
     { offer := some offerW, answer := some answW } (by decide) (by decide)⟩

/-- Claim C7: when the preconditions hold but no call record with an
offer exists under the given id, answerCall surfaces the not-found
error, writes no answer, leaves the store untouched and opens no
candidate subscription, so the session never reaches the answering
stage. -/
theorem C7_join_unknown_id_fails (ls : MediaStream) (callId : String)
    (ans : SessionDescription) (appId : String) (s : Store)
    (hid : callId ≠ "") (hnf : (s callId).bind (fun d => d.offer) = none) :
    (answerCall true (some ls) callId ans appId s).errorMessage
        = "Call ID not found or call has no offer."
    ∧ (answerCall true (some ls) callId ans appId s).answerWritten = none
    ∧ (answerCall true (some ls) callId ans appId s).store = s
    ∧ (answerCall true (some ls) callId ans appId s).subscribedToCandidates = false := by
  have hg : ¬(true = false ∨ (some ls : Option MediaStream) = none ∨ callId = "") := by
    simp [hid]
  simp only [answerCall, if_neg hg, hnf]
  exact ⟨trivial, trivial, trivial, trivial⟩

/-- Witness for C7 on an id absent from the store. -/
theorem C7_witness :
    (answerCall true (some streamW) "9" answW "app" emptyStore).errorMessage
        = "Call ID not found or call has no offer."
    ∧ (answerCall true (some streamW) "9" answW "app" emptyStore).answerWritten = none
    ∧ (answerCall true (some streamW) "9" answW "app" emptyStore).store = emptyStore
    ∧ (answerCall true (some streamW) "9" answW "app" emptyStore).subscribedToCandidates
        = false :=
  C7_join_unknown_id_fails streamW "9" answW "app" emptyStore (by decide) rfl

/-- Counterexample to claim C8: a second createCall invocation does
not fail with any error and does mutate the channel: it reports the
success message and writes a brand new call record that did not exist
before. -/
theorem C8_counterexample :
    c8second.errorMessage = "Call created! Share this ID: 222"
    ∧ c8second.store "222" = some { offer := some offerW2, answer := none }
    ∧ c8first.store "222" = none := by decide

/-- Claim C8 as amended: invoking createCall a second time neither
fails nor leaves the channel untouched; it starts a fresh negotiation
with a new connection and writes a new call record under the newly
generated id, leaving the first record in place when the ids differ. -/
theorem C8_second_createCall_starts_new_record (ls : MediaStream) (cap id1 id2 : String)
    (o1 o2 : SessionDescription) (appId : String) (hne : id2 ≠ id1) :
    ((createCall true (some ls)
        (createCall true (some ls) cap id1 o1 appId emptyStore).callIdState id2 o2 appId
        (createCall true (some ls) cap id1 o1 appId emptyStore).store).errorMessage
      = "Call created! Share this ID: " ++ id2)
    ∧ ((createCall true (some ls)
        (createCall true (some ls) cap id1 o1 appId emptyStore).callIdState id2 o2 appId
        (createCall true (some ls) cap id1 o1 appId emptyStore).store).store id2
      = some { offer := some o2, answer := none })
    ∧ ((createCall true (some ls)
        (createCall true (some ls) cap id1 o1 appId emptyStore).callIdState id2 o2 appId
        (createCall true (some ls) cap id1 o1 appId emptyStore).store).store id1
      = some { offer := some o1, answer := none })
    ∧ ((createCall true (some ls)
        (createCall true (some ls) cap id1 o1 appId emptyStore).callIdState id2 o2 appId
        (createCall true (some ls) cap id1 o1 appId emptyStore).store).pcRef
      = some (setLocalDescription (createPeerConnection ls) o2)) := by
  have hg : ¬(true = false ∨ (some ls : Option MediaStream) = none) := by simp
  have hne' : id1 ≠ id2 := fun hcontra => hne hcontra.symm
  simp only [createCall, if_neg hg, Option.getD_some, setDoc]
  refine ⟨?_, ?_, ?_, ?_⟩ <;> simp [hne']

/-- Witness for C8 at concrete distinct generated ids. -/
theorem C8_witness :
    (c8second.errorMessage = "Call created! Share this ID: 222")
    ∧ c8second.store "222" = some { offer := some offerW2, answer := none }
    ∧ c8second.store "111" = some { offer := some offerW, answer := none }
    ∧ c8second.pcRef = some (setLocalDescription (createPeerConnection streamW) offerW2) :=
  C8_second_createCall_starts_new_record streamW "" "111" "222" offerW offerW2 "app"
    (by decide)

/-- Claim C9: an answer document delivered to the initiator watch
while the local description of the connection is still unset is
ignored entirely: the connection state is left unchanged, so the
answer is neither applied nor queued. -/
theorem C9_answer_ignored_without_local_description (pc : PCState)
    (d : Option CallRecord) (h : pc.localDescription = none) :
    onAnswerSnapshot pc d = pc := by
  unfold onAnswerSnapshot
  split
  · exact if_neg (fun hcon => hcon.1 h)
  · rfl

/-- Witness for C9 on a fresh connection and a delivered answer. -/
theorem C9_witness :
    onAnswerSnapshot initialPC (some { offer := some offerW, answer := some answW })
      = initialPC :=
  C9_answer_ignored_without_local_description initialPC
    (some { offer := some offerW, answer := some answW }) rfl

/-- Claim C10: when answerCall passes the precondition check but the
call record lookup fails, the session still holds the freshly created
peer connection, to which every track of the local stream has already
been attached; the failure path does not undo these effects. -/
theorem C10_failed_join_keeps_connection (ls : MediaStream) (callId : String)
    (ans : SessionDescription) (appId : String) (s : Store)
    (hid : callId ≠ "") (hnf : (s callId).bind (fun d => d.offer) = none) :
    (answerCall true (some ls) callId ans appId s).pcRef
        = some (createPeerConnection ls)
    ∧ (createPeerConnection ls).addedTracks = ls.tracks := by
  have hg : ¬(true = false ∨ (some ls : Option MediaStream) = none ∨ callId = "") := by
    simp [hid]
  constructor
  · simp only [answerCall, if_neg hg, hnf, Option.getD_some]
  · exact (createPeerConnection_fields ls).1

/-- Witness for C10 on an id absent from the store. -/
theorem C10_witness :
    (answerCall true (some streamW) "8" answW "app" emptyStore).pcRef
        = some (createPeerConnection streamW)
    ∧ (createPeerConnection streamW).addedTracks = streamW.tracks :=
  C10_failed_join_keeps_connection streamW "8" answW "app" emptyStore (by decide) rfl

end DroidCam
